import Mathlib

/-!
Shallow embedding of the vertex-batching core of SymoCraft
(src/include/renderer/batch.hpp), together with theorems settling the
spec claims about it.

Modeling conventions:
* `uint32` values are modeled as `Nat`, reduced by `% uint32Mod` exactly
  where the C++ performs 32-bit wrap-around arithmetic (`m_vertex_count++`
  and `m_vertex_count += vertex_amount`). Comparisons with the literal `0`
  on an unsigned operand are modeled as the corresponding `Nat`
  comparison, which is what the C++ usual arithmetic conversions yield.
* The CPU staging region `data` is `Option (Nat → V)`, indexed by vertex
  record; `none` models the null pointer. `m_data_size` is kept in vertex
  records (the C++ keeps `sizeof(T) * records` bytes; the scaling by
  `sizeof(T)` is a fixed bijection, so record granularity is faithful,
  and "byte-for-byte" equality of records becomes record equality).
* The GPU vertex buffer is `gpu_vb : Nat → V`, also record-indexed;
  `glNamedBufferSubData(m_vertex_data_vbo, off, len, src)` with byte
  offset `count * sizeof(Vertex3D)` and byte length
  `amount * sizeof(Vertex3D)` becomes a pointwise update of records
  `[count, count + amount)`. (The multiplications are performed in
  `size_t`, so they do not wrap for any reachable operand.)
* Logging and GL calls are modeled as an event list returned next to the
  new state. `AmoLogger_Error` is declared in core.h, which is not part
  of this fragment; per the spec's error-propagation policy (errors are
  logged, non-fatal, execution continues) it is modeled as emitting an
  event and falling through to the next statement.
* A store through a null staging pointer (`data[m_vertex_count] = v`
  with `data == nullptr`) is undefined behavior in C++; the model records
  it as a `nullStagingWrite` event and performs the count update the
  source code performs.
-/

namespace SymoCraft

/-- 2^32: the modulus of `uint32` arithmetic. -/
def uint32Mod : Nat := 4294967296

/-- `inline constexpr uint32 kMaxBatchSize = 10000000;` -/
def kMaxBatchSize : Nat := 10000000

/-- Observable side effects of a batch operation: logger/stderr output and
GL calls. -/
inductive BatchEvent where
  /-- `AmoLogger_Error("Invalid batch.\n")` -/
  | errInvalidBatch
  /-- `AmoLogger_Error("Batch ran out of room. I have %d/%d vertices.\n", ...)` -/
  | errOutOfRoom (count maxSize : Nat)
  /-- `AmoLogger_Error("Invalid vertex number.\n")` -/
  | errNegativeCount
  /-- `std::cerr << "No vertices to draw.\n"` -/
  | warnNothingToDraw
  /-- `glBindVertexArray(vao)` -/
  | bindVertexArray (vao : Nat)
  /-- `glDrawArrays(GL_TRIANGLES, first, count)` -/
  | drawTriangles (first count : Nat)
  /-- a store through the null staging pointer (undefined behavior) -/
  | nullStagingWrite
deriving DecidableEq

/-- The state of one `Batch<T>` (fields of the C++ class), with vertex
records drawn from `V`. -/
structure BatchState (V : Type) where
  m_vao : Nat
  m_vertex_data_vbo : Nat
  m_draw_command_vbo : Nat
  /-- staging size, in vertex records (C++ stores `sizeof(T) *` this) -/
  m_data_size : Nat
  /-- `uint32 m_vertex_count` -/
  m_vertex_count : Nat
  /-- `int32 zIndex` -/
  zIndex : Int
  /-- `T* data`; `none` models the null pointer -/
  data : Option (Nat → V)
  /-- contents of the GPU vertex buffer `m_vertex_data_vbo`, record-indexed -/
  gpu_vb : Nat → V

/-- `bool hasRoom() const { return m_vertex_count <= kMaxBatchSize; }` -/
def hasRoom {V : Type} (s : BatchState V) : Bool :=
  decide (s.m_vertex_count ≤ kMaxBatchSize)

/-- The defensive check `m_vertex_count < 0`: the C++ usual arithmetic
conversions convert the literal `0` to `uint32`, so the comparison is on
the unsigned (hence non-negative) value. -/
def negativeCountCheck {V : Type} (s : BatchState V) : Bool :=
  decide (s.m_vertex_count < 0)

/-- `void init(std::initializer_list<VertexAttribute>)`: allocates the
staging region (`mem` is the arbitrary content of the fresh allocation),
resets the count and z-index, creates the buffer handles and allocates
GPU storage (`gpuMem` is its unspecified initial content). The attribute
configuration loop only issues GL layout calls and touches no modeled
state. -/
def init {V : Type} (mem gpuMem : Nat → V) (vao vbo cmdVbo : Nat) :
    BatchState V :=
  { m_vao := vao
    m_vertex_data_vbo := vbo
    m_draw_command_vbo := cmdVbo
    m_data_size := kMaxBatchSize
    m_vertex_count := 0
    zIndex := 0
    data := some mem
    gpu_vb := gpuMem }

/-- `void AddVertex(const T& vertex)` — the single-vertex overload.
Note that the `!data` branch in the source logs the error but does not
return, so control falls through to the remaining checks and, when they
pass, to the store `data[m_vertex_count] = vertex` and the increment. -/
def AddVertex {V : Type} (s : BatchState V) (vertex : V) :
    BatchState V × List BatchEvent :=
  let ev0 : List BatchEvent :=
    if s.data.isNone then [BatchEvent.errInvalidBatch] else []
  if !hasRoom s then
    (s, ev0 ++ [BatchEvent.errOutOfRoom s.m_vertex_count kMaxBatchSize])
  else if negativeCountCheck s then
    (s, ev0 ++ [BatchEvent.errNegativeCount])
  else
    match s.data with
    | some d =>
        ({ s with
            data := some (fun i => if i = s.m_vertex_count then vertex else d i)
            m_vertex_count := (s.m_vertex_count + 1) % uint32Mod },
         ev0)
    | none =>
        ({ s with m_vertex_count := (s.m_vertex_count + 1) % uint32Mod },
         ev0 ++ [BatchEvent.nullStagingWrite])

/-- `void AddVertex(const T* vertex, uint32 vertex_amount)` — the bulk
overload. The same `!data` fall-through applies; on the main path it
uploads `vertex_amount` records directly into the GPU vertex buffer at
record offset `m_vertex_count` and advances the count (uint32 wrap). -/
def AddVertexBulk {V : Type} (s : BatchState V) (vertex : Nat → V)
    (vertex_amount : Nat) : BatchState V × List BatchEvent :=
  let ev0 : List BatchEvent :=
    if s.data.isNone then [BatchEvent.errInvalidBatch] else []
  if !hasRoom s then
    (s, ev0 ++ [BatchEvent.errOutOfRoom s.m_vertex_count kMaxBatchSize])
  else if negativeCountCheck s then
    (s, ev0 ++ [BatchEvent.errNegativeCount])
  else
    ({ s with
        gpu_vb := fun i =>
          if s.m_vertex_count ≤ i ∧ i < s.m_vertex_count + vertex_amount then
            vertex (i - s.m_vertex_count)
          else s.gpu_vb i
        m_vertex_count := (s.m_vertex_count + vertex_amount) % uint32Mod },
     ev0)

/-- `void Clear() { m_vertex_count = 0; }` -/
def Clear {V : Type} (s : BatchState V) : BatchState V :=
  { s with m_vertex_count := 0 }

/-- `void Draw()`: `m_vertex_count <= 0` on a `uint32` holds exactly when
the count is zero; otherwise bind, `glDrawArrays(GL_TRIANGLES, 0, count)`,
unbind, `Clear()`. -/
def Draw {V : Type} (s : BatchState V) : BatchState V × List BatchEvent :=
  if s.m_vertex_count ≤ 0 then
    (s, [BatchEvent.warnNothingToDraw])
  else
    (Clear s,
     [BatchEvent.bindVertexArray s.m_vao,
      BatchEvent.drawTriangles 0 s.m_vertex_count,
      BatchEvent.bindVertexArray 0])

/-- `void ReloadData()`: copies the whole `m_data_size` staging region
into the GPU vertex buffer at offset 0. In every reachable null-pointer
state `m_data_size = 0`, so the copy of zero bytes is a no-op. -/
def ReloadData {V : Type} (s : BatchState V) : BatchState V :=
  match s.data with
  | some d =>
      { s with gpu_vb := fun i => if i < s.m_data_size then d i else s.gpu_vb i }
  | none => s

/-- `void Free()`: releases the staging allocation, nulls the pointer and
zeroes the recorded size; does nothing when `data` is already null. -/
def Free {V : Type} (s : BatchState V) : BatchState V :=
  match s.data with
  | some _ => { s with data := none, m_data_size := 0 }
  | none => s

/-- The staging record stored at slot `i`, when the staging region is
allocated. -/
def stagingAt {V : Type} (s : BatchState V) (i : Nat) : Option V :=
  s.data.map (fun d => d i)

/-- `n` iterated single-vertex `AddVertex v` calls (states only). -/
def addN {V : Type} (v : V) : Nat → BatchState V → BatchState V
  | 0, s => s
  | n + 1, s => (AddVertex (addN v n s) v).1

/-- Folding single-vertex `AddVertex` over a list of vertices, in order
(states only). -/
def addList {V : Type} (s : BatchState V) (vs : List V) : BatchState V :=
  vs.foldl (fun t v => (AddVertex t v).1) s

/-! ### Helper lemmas about the operations -/

theorem negativeCountCheck_eq_false {V : Type} (s : BatchState V) :
    negativeCountCheck s = false := by
  simp [negativeCountCheck]

theorem AddVertex_count_of_le {V : Type} (s : BatchState V) (v : V)
    (h : s.m_vertex_count ≤ kMaxBatchSize) :
    (AddVertex s v).1.m_vertex_count = s.m_vertex_count + 1 := by
  have hr : hasRoom s = true := by simpa [hasRoom] using h
  have hm : (s.m_vertex_count + 1) % uint32Mod = s.m_vertex_count + 1 := by
    apply Nat.mod_eq_of_lt
    have hk : kMaxBatchSize + 1 < uint32Mod := by decide
    omega
  unfold AddVertex
  cases hd : s.data <;> simp [hd, hr, negativeCountCheck, hm]

theorem AddVertex_eq_of_some {V : Type} (s : BatchState V) (v : V)
    (d : Nat → V) (hd : s.data = some d)
    (h : s.m_vertex_count ≤ kMaxBatchSize) :
    AddVertex s v =
      ({ s with
          data := some (fun i => if i = s.m_vertex_count then v else d i)
          m_vertex_count := s.m_vertex_count + 1 }, []) := by
  have hr : hasRoom s = true := by simpa [hasRoom] using h
  have hm : (s.m_vertex_count + 1) % uint32Mod = s.m_vertex_count + 1 := by
    apply Nat.mod_eq_of_lt
    have hk : kMaxBatchSize + 1 < uint32Mod := by decide
    omega
  unfold AddVertex
  simp [hd, hr, negativeCountCheck, hm]

theorem AddVertexBulk_fst {V : Type} (s : BatchState V) (arr : Nat → V)
    (amount : Nat) (h : s.m_vertex_count ≤ kMaxBatchSize) :
    (AddVertexBulk s arr amount).1 =
      { s with
          gpu_vb := fun i =>
            if s.m_vertex_count ≤ i ∧ i < s.m_vertex_count + amount then
              arr (i - s.m_vertex_count)
            else s.gpu_vb i
          m_vertex_count := (s.m_vertex_count + amount) % uint32Mod } := by
  have hr : hasRoom s = true := by simpa [hasRoom] using h
  unfold AddVertexBulk
  simp [hr, negativeCountCheck]

theorem AddVertexBulk_snd_of_some {V : Type} (s : BatchState V)
    (arr : Nat → V) (amount : Nat) (hd : s.data.isSome)
    (h : s.m_vertex_count ≤ kMaxBatchSize) :
    (AddVertexBulk s arr amount).2 = [] := by
  obtain ⟨d, hd'⟩ := Option.isSome_iff_exists.mp hd
  have hr : hasRoom s = true := by simpa [hasRoom] using h
  unfold AddVertexBulk
  simp [hd', hr, negativeCountCheck]

theorem addN_count {V : Type} (v : V) (n : Nat) (s : BatchState V)
    (h0 : s.m_vertex_count = 0) (hn : n ≤ kMaxBatchSize + 1) :
    (addN v n s).m_vertex_count = n := by
  induction n with
  | zero => simpa [addN] using h0
  | succ m ih =>
      have hm : (addN v m s).m_vertex_count = m := ih (by omega)
      have hle : (addN v m s).m_vertex_count ≤ kMaxBatchSize := by
        rw [hm]; omega
      show (AddVertex (addN v m s) v).1.m_vertex_count = m + 1
      rw [AddVertex_count_of_le _ _ hle, hm]

theorem addList_spec {V : Type} (vs : List V) :
    ∀ (s : BatchState V) (d : Nat → V), s.data = some d →
      s.m_vertex_count + vs.length ≤ kMaxBatchSize + 1 →
      (addList s vs).m_vertex_count = s.m_vertex_count + vs.length ∧
      ∃ d', (addList s vs).data = some d' ∧
        (∀ i, i < s.m_vertex_count → d' i = d i) ∧
        ∀ j (hj : j < vs.length),
          d' (s.m_vertex_count + j) = vs.get ⟨j, hj⟩ := by
  induction vs with
  | nil =>
      intro s d hd _
      refine ⟨by simp [addList], d, by simpa [addList] using hd,
        fun i _ => rfl, ?_⟩
      intro j hj
      exact absurd hj (by simp)
  | cons v vs ih =>
      intro s d hd hlen
      have hc : s.m_vertex_count ≤ kMaxBatchSize := by
        simp only [List.length_cons] at hlen; omega
      have hstep := AddVertex_eq_of_some s v d hd hc
      have hdata1 : (AddVertex s v).1.data
          = some (fun i => if i = s.m_vertex_count then v else d i) := by
        rw [hstep]
      have hcount1 : (AddVertex s v).1.m_vertex_count
          = s.m_vertex_count + 1 := by
        rw [hstep]
      have haddList : addList s (v :: vs) = addList (AddVertex s v).1 vs := by
        simp [addList]
      obtain ⟨hcnt, d', hd', hpres, hslots⟩ :=
        ih (AddVertex s v).1 (fun i => if i = s.m_vertex_count then v else d i)
          hdata1
          (by rw [hcount1]; simp only [List.length_cons] at hlen; omega)
      rw [haddList]
      simp only [hcount1] at hcnt hpres hslots
      refine ⟨by rw [hcnt]; simp only [List.length_cons]; omega,
        d', hd', ?_, ?_⟩
      · intro i hi
        have hpi := hpres i (by omega)
        simpa [Nat.ne_of_lt hi] using hpi
      · intro j hj
        cases j with
        | zero =>
            have hp := hpres s.m_vertex_count (by omega)
            simpa using hp
        | succ j' =>
            have hj' : j' < vs.length := by
              simp only [List.length_cons] at hj; omega
            have hidx : s.m_vertex_count + (j' + 1)
                = s.m_vertex_count + 1 + j' := by omega
            rw [hidx, hslots j' hj']
            rfl

/-! ### Concrete states used by closed theorems and witnesses -/

/-- A freshly initialized batch over `Nat` vertex records. -/
def freshBatch : BatchState Nat :=
  init (fun _ => 0) (fun _ => 0) 1 2 3

/-- A batch whose staging memory was never allocated (`data == nullptr`). -/
def nullBatch : BatchState Nat :=
  { m_vao := 1
    m_vertex_data_vbo := 2
    m_draw_command_vbo := 3
    m_data_size := 0
    m_vertex_count := 0
    zIndex := 0
    data := none
    gpu_vb := fun _ => 0 }

/-- A fresh batch after one successful single-vertex `AddVertex 99`
(`m_vertex_count = 1`). -/
def oneBatch : BatchState Nat :=
  (AddVertex freshBatch 99).1

/-- A small initialized batch state with two staged vertices. -/
def smallBatch : BatchState Nat :=
  { m_vao := 1
    m_vertex_data_vbo := 2
    m_draw_command_vbo := 3
    m_data_size := 4
    m_vertex_count := 2
    zIndex := 5
    data := some (fun i => i + 10)
    gpu_vb := fun _ => 0 }

/-! ### Claim theorems -/

/-- C1: the claimed capacity invariant `vertex_count ≤ kMaxBatchSize` is
violated by the code. `hasRoom()` compares with `<=`, so after
`kMaxBatchSize` successful single-vertex `AddVertex` calls (count exactly
at capacity) one more call is still accepted: it stores at index
`kMaxBatchSize` — one past the end of the allocated staging region — and
raises `m_vertex_count` to `kMaxBatchSize + 1`. -/
theorem capacity_overflow_at_kMaxBatchSize :
    (addN 0 kMaxBatchSize freshBatch).m_vertex_count = kMaxBatchSize ∧
    (AddVertex (addN 0 kMaxBatchSize freshBatch) 0).1.m_vertex_count
      = kMaxBatchSize + 1 := by
  have h1 : (addN 0 kMaxBatchSize freshBatch).m_vertex_count
      = kMaxBatchSize :=
    addN_count 0 kMaxBatchSize freshBatch rfl (by omega)
  refine ⟨h1, ?_⟩
  rw [AddVertex_count_of_le _ _ (le_of_eq h1), h1]

/-- C2: on a batch whose staging memory was never allocated, `AddVertex`
logs "Invalid batch." but does not return: the single-vertex overload
falls through to the store through the null staging pointer and
increments `m_vertex_count`; the bulk overload falls through to the GPU
upload and advances the count. The claimed "aborts with no state change"
is false. -/
theorem uninitialized_addVertex_not_aborted :
    (AddVertex nullBatch 7).2
      = [BatchEvent.errInvalidBatch, BatchEvent.nullStagingWrite] ∧
    (AddVertex nullBatch 7).1.m_vertex_count = 1 ∧
    (AddVertexBulk nullBatch (fun _ => 9) 2).2
      = [BatchEvent.errInvalidBatch] ∧
    (AddVertexBulk nullBatch (fun _ => 9) 2).1.m_vertex_count = 2 ∧
    (AddVertexBulk nullBatch (fun _ => 9) 2).1.gpu_vb 0 = 9 := by
  refine ⟨rfl, rfl, rfl, rfl, ?_⟩
  simp [AddVertexBulk, nullBatch, hasRoom, negativeCountCheck, kMaxBatchSize]

/-- C3 counterexample: a successful bulk `AddVertex` does not always
increase `m_vertex_count` by the requested amount. On a batch with
count 1, a bulk call with `vertex_amount = 2^32 - 1` passes every check
(no error is logged) yet leaves the count at `(1 + 2^32 - 1) % 2^32 = 0`,
not `1 + (2^32 - 1)`: `m_vertex_count += vertex_amount` wraps in uint32
arithmetic. -/
theorem bulk_add_count_wraps :
    oneBatch.m_vertex_count = 1 ∧
    (AddVertexBulk oneBatch (fun _ => 0) 4294967295).2 = [] ∧
    (AddVertexBulk oneBatch (fun _ => 0) 4294967295).1.m_vertex_count = 0 ∧
    ¬ (AddVertexBulk oneBatch (fun _ => 0) 4294967295).1.m_vertex_count
        = oneBatch.m_vertex_count + 4294967295 := by
  refine ⟨rfl, rfl, rfl, ?_⟩
  intro hcontra
  exact absurd hcontra (by decide)

/-- C3 (amended): on an initialized batch that passes the capacity check,
single-vertex `AddVertex` increases `m_vertex_count` by exactly 1, and
bulk `AddVertex` sets it to `(m_vertex_count + amount) % 2^32`, which is
an increase by exactly `amount` whenever that sum stays below `2^32`. -/
theorem add_count_increment_amended {V : Type} (s : BatchState V) (v : V)
    (arr : Nat → V) (amount : Nat) (_hd : s.data.isSome)
    (h : s.m_vertex_count ≤ kMaxBatchSize) :
    (AddVertex s v).1.m_vertex_count = s.m_vertex_count + 1 ∧
    (AddVertexBulk s arr amount).1.m_vertex_count
      = (s.m_vertex_count + amount) % uint32Mod ∧
    (s.m_vertex_count + amount < uint32Mod →
      (AddVertexBulk s arr amount).1.m_vertex_count
        = s.m_vertex_count + amount) := by
  have hbulk : (AddVertexBulk s arr amount).1.m_vertex_count
      = (s.m_vertex_count + amount) % uint32Mod := by
    rw [AddVertexBulk_fst s arr amount h]
  refine ⟨AddVertex_count_of_le s v h, hbulk, ?_⟩
  intro hlt
  rw [hbulk, Nat.mod_eq_of_lt hlt]

/-- Witness for C3 (amended) at a concrete input. -/
theorem add_count_increment_amended_witness :
    (smallBatch.data.isSome ∧ smallBatch.m_vertex_count ≤ kMaxBatchSize) ∧
    (AddVertex smallBatch 5).1.m_vertex_count
      = smallBatch.m_vertex_count + 1 ∧
    (AddVertexBulk smallBatch (fun _ => 7) 3).1.m_vertex_count
      = (smallBatch.m_vertex_count + 3) % uint32Mod ∧
    (smallBatch.m_vertex_count + 3 < uint32Mod →
      (AddVertexBulk smallBatch (fun _ => 7) 3).1.m_vertex_count
        = smallBatch.m_vertex_count + 3) := by
  have h := add_count_increment_amended smallBatch 5 (fun _ => 7) 3
    (by decide) (by decide)
  exact ⟨⟨by decide, by decide⟩, h.1, h.2.1, h.2.2⟩

/-- C4: when `m_vertex_count > 0`, `Draw()` binds the vertex array,
issues one `glDrawArrays(GL_TRIANGLES, 0, m_vertex_count)` covering
vertices `[0, m_vertex_count)`, unbinds, and then `Clear()` resets the
count to zero; the staging buffer is untouched. -/
theorem draw_resets_count_preserves_staging {V : Type} (s : BatchState V)
    (h : 0 < s.m_vertex_count) :
    (Draw s).2 = [BatchEvent.bindVertexArray s.m_vao,
                  BatchEvent.drawTriangles 0 s.m_vertex_count,
                  BatchEvent.bindVertexArray 0] ∧
    (Draw s).1.m_vertex_count = 0 ∧
    (Draw s).1.data = s.data := by
  have hne : ¬ s.m_vertex_count ≤ 0 := by omega
  simp [Draw, hne, Clear]

/-- Witness for C4 at a concrete state with one pending vertex. -/
theorem draw_resets_count_preserves_staging_witness :
    0 < oneBatch.m_vertex_count ∧
    ((Draw oneBatch).2 = [BatchEvent.bindVertexArray oneBatch.m_vao,
                          BatchEvent.drawTriangles 0 oneBatch.m_vertex_count,
                          BatchEvent.bindVertexArray 0] ∧
      (Draw oneBatch).1.m_vertex_count = 0 ∧
      (Draw oneBatch).1.data = oneBatch.data) :=
  ⟨by decide, draw_resets_count_preserves_staging oneBatch (by decide)⟩

/-- C5: starting from a batch with count zero and allocated staging
memory (freshly initialized or freshly cleared), `n` successful
single-vertex `AddVertex` calls leave count `n` and put the `j`-th vertex
of the call sequence into staging slot `j`, for every `j < n`. -/
theorem addVertex_sequence_ordered {V : Type} (s : BatchState V)
    (d : Nat → V) (hd : s.data = some d) (h0 : s.m_vertex_count = 0)
    (vs : List V) (hlen : vs.length ≤ kMaxBatchSize) :
    (addList s vs).m_vertex_count = vs.length ∧
    ∀ j (hj : j < vs.length),
      stagingAt (addList s vs) j = some (vs.get ⟨j, hj⟩) := by
  obtain ⟨hcnt, d', hd', _, hslots⟩ :=
    addList_spec vs s d hd (by omega)
  rw [h0] at hcnt hslots
  refine ⟨by rw [hcnt]; omega, ?_⟩
  intro j hj
  have hslot := hslots j hj
  rw [Nat.zero_add] at hslot
  simp [stagingAt, hd', hslot]

/-- Witness for C5: three vertices accumulated in order on a fresh
batch. -/
theorem addVertex_sequence_ordered_witness :
    (freshBatch.data = some (fun _ => 0) ∧ freshBatch.m_vertex_count = 0 ∧
      ([10, 20, 30] : List Nat).length ≤ kMaxBatchSize) ∧
    (addList freshBatch [10, 20, 30]).m_vertex_count
      = ([10, 20, 30] : List Nat).length ∧
    stagingAt (addList freshBatch [10, 20, 30]) 1
      = some (([10, 20, 30] : List Nat).get ⟨1, by decide⟩) := by
  have h := addVertex_sequence_ordered freshBatch (fun _ => 0) rfl rfl
    [10, 20, 30] (by decide)
  exact ⟨⟨rfl, rfl, by decide⟩, h.1, h.2 1 (by decide)⟩

/-- C6: `ReloadData()` copies the whole `m_data_size` staging region into
the GPU vertex buffer at offset zero (not just the used prefix), leaving
the staging memory itself unchanged; hence, whenever the pending count
lies within the staging region, the GPU buffer's first `m_vertex_count`
records equal the staging buffer's first `m_vertex_count` records. -/
theorem reloadData_full_sync {V : Type} (s : BatchState V) (d : Nat → V)
    (hd : s.data = some d) (hc : s.m_vertex_count ≤ s.m_data_size) :
    ((ReloadData s).gpu_vb
        = fun i => if i < s.m_data_size then d i else s.gpu_vb i) ∧
    (ReloadData s).data = s.data ∧
    ∀ i, i < s.m_vertex_count →
      (ReloadData s).gpu_vb i = d i ∧ stagingAt (ReloadData s) i = some (d i) := by
  refine ⟨by simp [ReloadData, hd], by simp [ReloadData, hd], ?_⟩
  intro i hi
  have hsize : i < s.m_data_size := by omega
  constructor
  · simp [ReloadData, hd, hsize]
  · simp [ReloadData, stagingAt, hd]

/-- Witness for C6 at a concrete state with two pending vertices. -/
theorem reloadData_full_sync_witness :
    (smallBatch.data = some (fun i => i + 10) ∧
      smallBatch.m_vertex_count ≤ smallBatch.m_data_size) ∧
    (ReloadData smallBatch).gpu_vb 1 = (fun i => i + 10) 1 ∧
    stagingAt (ReloadData smallBatch) 1 = some ((fun i => i + 10) 1) := by
  have h := reloadData_full_sync smallBatch (fun i => i + 10) rfl (by decide)
  have h1 := h.2.2 1 (by decide)
  exact ⟨⟨rfl, by decide⟩, h1.1, h1.2⟩

/-- C7: the two accumulate paths touch disjoint buffers. A successful
single-vertex `AddVertex` leaves the GPU vertex buffer unchanged, while a
successful bulk `AddVertex` leaves the CPU staging memory unchanged,
writes the `amount` supplied records into the GPU buffer at record
offset `m_vertex_count`, and leaves every GPU record outside
`[m_vertex_count, m_vertex_count + amount)` unchanged. -/
theorem accumulate_paths_disjoint {V : Type} (s : BatchState V) (v : V)
    (arr : Nat → V) (amount : Nat) (hd : s.data.isSome)
    (h : s.m_vertex_count ≤ kMaxBatchSize) :
    (AddVertex s v).1.gpu_vb = s.gpu_vb ∧
    (AddVertexBulk s arr amount).1.data = s.data ∧
    (∀ j, j < amount →
      (AddVertexBulk s arr amount).1.gpu_vb (s.m_vertex_count + j) = arr j) ∧
    ∀ i, i < s.m_vertex_count ∨ s.m_vertex_count + amount ≤ i →
      (AddVertexBulk s arr amount).1.gpu_vb i = s.gpu_vb i := by
  obtain ⟨d, hd'⟩ := Option.isSome_iff_exists.mp hd
  have hsingle : (AddVertex s v).1.gpu_vb = s.gpu_vb := by
    rw [AddVertex_eq_of_some s v d hd' h]
  have hbulk := AddVertexBulk_fst s arr amount h
  refine ⟨hsingle, by rw [hbulk], ?_, ?_⟩
  · intro j hj
    rw [hbulk]
    simp only
    rw [if_pos ⟨Nat.le_add_right _ _, by omega⟩, Nat.add_sub_cancel_left]
  · intro i hi
    rw [hbulk]
    simp only
    rw [if_neg (by omega)]

/-- Witness for C7 at a concrete state and a concrete bulk upload. -/
theorem accumulate_paths_disjoint_witness :
    (smallBatch.data.isSome ∧ smallBatch.m_vertex_count ≤ kMaxBatchSize) ∧
    (AddVertex smallBatch 5).1.gpu_vb = smallBatch.gpu_vb ∧
    (AddVertexBulk smallBatch (fun j => j + 100) 3).1.data
      = smallBatch.data ∧
    (AddVertexBulk smallBatch (fun j => j + 100) 3).1.gpu_vb
      (smallBatch.m_vertex_count + 1) = (fun j => j + 100) 1 ∧
    (AddVertexBulk smallBatch (fun j => j + 100) 3).1.gpu_vb 0
      = smallBatch.gpu_vb 0 := by
  have h := accumulate_paths_disjoint smallBatch 5 (fun j => j + 100) 3
    (by decide) (by decide)
  exact ⟨⟨by decide, by decide⟩, h.1, h.2.1,
    h.2.2.1 1 (by decide), h.2.2.2 0 (Or.inl (by decide))⟩

/-- C8: `Draw()` on a batch with zero pending vertices emits only the
"No vertices to draw." diagnostic and returns: the state (count, staging
memory, GPU buffer, handles) is exactly unchanged and no bind or draw
call is issued. -/
theorem empty_draw_noop {V : Type} (s : BatchState V)
    (h : s.m_vertex_count = 0) :
    (Draw s).1 = s ∧ (Draw s).2 = [BatchEvent.warnNothingToDraw] := by
  simp [Draw, h]

/-- Witness for C8 on a freshly initialized (hence empty) batch. -/
theorem empty_draw_noop_witness :
    freshBatch.m_vertex_count = 0 ∧
    (Draw freshBatch).1 = freshBatch ∧
    (Draw freshBatch).2 = [BatchEvent.warnNothingToDraw] := by
  have h := empty_draw_noop freshBatch rfl
  exact ⟨rfl, h.1, h.2⟩

/-- C9: on a batch with allocated staging memory, `Free()` nulls the
staging reference and zeroes the recorded staging size, while leaving
`m_vertex_count`, `zIndex`, the GPU-side handles (`m_vao`,
`m_vertex_data_vbo`, `m_draw_command_vbo`) and the GPU buffer contents
unchanged; a second `Free()` on the result changes nothing, so `Free` is
idempotent. -/
theorem free_releases_staging_idempotent {V : Type} (s : BatchState V)
    (hd : s.data.isSome) :
    (Free s).data = none ∧
    (Free s).m_data_size = 0 ∧
    (Free s).m_vertex_count = s.m_vertex_count ∧
    (Free s).zIndex = s.zIndex ∧
    (Free s).m_vao = s.m_vao ∧
    (Free s).m_vertex_data_vbo = s.m_vertex_data_vbo ∧
    (Free s).m_draw_command_vbo = s.m_draw_command_vbo ∧
    (Free s).gpu_vb = s.gpu_vb ∧
    Free (Free s) = Free s := by
  obtain ⟨d, hd'⟩ := Option.isSome_iff_exists.mp hd
  simp [Free, hd']

/-- Witness for C9 at a concrete initialized state. -/
theorem free_releases_staging_idempotent_witness :
    smallBatch.data.isSome ∧
    (Free smallBatch).data = none ∧
    (Free smallBatch).m_data_size = 0 ∧
    (Free smallBatch).m_vertex_count = smallBatch.m_vertex_count ∧
    (Free smallBatch).zIndex = smallBatch.zIndex ∧
    (Free smallBatch).m_vao = smallBatch.m_vao ∧
    (Free smallBatch).m_vertex_data_vbo = smallBatch.m_vertex_data_vbo ∧
    (Free smallBatch).m_draw_command_vbo = smallBatch.m_draw_command_vbo ∧
    (Free smallBatch).gpu_vb = smallBatch.gpu_vb ∧
    Free (Free smallBatch) = Free smallBatch := by
  have h := free_releases_staging_idempotent smallBatch (by decide)
  exact ⟨by decide, h.1, h.2.1, h.2.2.1, h.2.2.2.1, h.2.2.2.2.1,
    h.2.2.2.2.2.1, h.2.2.2.2.2.2.1, h.2.2.2.2.2.2.2.1, h.2.2.2.2.2.2.2.2⟩

/-- C10: the defensive `m_vertex_count < 0` branch is dead code. Since
`m_vertex_count` is `uint32`, the comparison against `0` is on the
non-negative unsigned value and never holds, so no execution of either
`AddVertex` overload — on any state and any input — emits the
"Invalid vertex number." error. -/
theorem negative_count_branch_unreachable {V : Type} (s : BatchState V)
    (v : V) (arr : Nat → V) (amount : Nat) :
    BatchEvent.errNegativeCount ∉ (AddVertex s v).2 ∧
    BatchEvent.errNegativeCount ∉ (AddVertexBulk s arr amount).2 := by
  constructor
  · unfold AddVertex
    cases hd : s.data <;> cases hr : hasRoom s <;>
      simp [hd, hr, negativeCountCheck]
  · unfold AddVertexBulk
    cases hd : s.data <;> cases hr : hasRoom s <;>
      simp [hd, hr, negativeCountCheck]

end SymoCraft
